import Mathlib

/-!
# Verification of the shelflife item CRUD pipeline

Shallow embedding of `apps/backend/src/routes/items.ts`, the response
envelope helpers (`successResponse` / `errorResponse`) and the zod
validation schemas, together with theorems settling the specification
claims about them.

Conventions:
* JavaScript `undefined` (absent field) is the outer `Option`'s `none`;
  an explicit JSON `null` is the inner `Option`'s `none`.
* JS numbers are modelled as `JsNum` (`nan`, `±∞`, or an exact rational);
  float rounding is idealized away (it never affects the sign or NaN-ness
  of the small literals appearing in these routes).
* `Date` values are modelled by the ISO string they were parsed from.
-/

namespace Shelflife

/-- An arbitrary JSON value: string, number, boolean, null,
array of JSON values, or string-keyed object of JSON values. -/
inductive JsonValue where
  | str (s : String)
  | num (q : ℚ)
  | bool (b : Bool)
  | null
  | arr (xs : List JsonValue)
  | obj (fields : List (String × JsonValue))

/-- `jsonValueSchema` (items.ts lines 9-18): a lazy union of
string, number, boolean, null, array-of-self and record-of-self.
Returns `true` when the value is accepted. -/
def jsonValueAccepts : JsonValue → Bool
  | .str _ => true
  | .num _ => true
  | .bool _ => true
  | .null => true
  | .arr xs => xs.attach.all fun x => jsonValueAccepts x.1
  | .obj fs => fs.attach.all fun f => jsonValueAccepts f.1.2
decreasing_by
  · have h := List.sizeOf_lt_of_mem x.2
    simp only [JsonValue.arr.sizeOf_spec]
    try omega
  · have h1 := List.sizeOf_lt_of_mem f.2
    have h2 : sizeOf f.1.2 < sizeOf f.1 := by
      obtain ⟨⟨a, b⟩, hf⟩ := f
      simp only [Prod.mk.sizeOf_spec]
      omega
    simp only [JsonValue.obj.sizeOf_spec]
    try omega

/-- `extraInfo`'s schema (items.ts line 58):
`z.record(z.string(), jsonValueSchema)` — a top-level object whose
values satisfy `jsonValueSchema`. -/
def extraInfoAccepts : JsonValue → Bool
  | .obj fs => fs.attach.all fun f => jsonValueAccepts f.1.2
  | _ => false

/-- `jsonValueSchema` accepts every JSON value. -/
theorem jsonValueAccepts_eq_true : ∀ (v : JsonValue), jsonValueAccepts v = true := by
  have key : ∀ (n : ℕ) (v : JsonValue), sizeOf v ≤ n → jsonValueAccepts v = true := by
    intro n
    induction n with
    | zero =>
      intro v h
      cases v <;> simp at h
    | succ n ih =>
      intro v h
      cases v with
      | str s => simp [jsonValueAccepts]
      | num q => simp [jsonValueAccepts]
      | bool b => simp [jsonValueAccepts]
      | null => simp [jsonValueAccepts]
      | arr xs =>
        simp only [jsonValueAccepts, List.all_eq_true, List.mem_attach, forall_true_left,
          Subtype.forall]
        intro x hx
        apply ih
        have hlt := List.sizeOf_lt_of_mem hx
        simp only [JsonValue.arr.sizeOf_spec] at h
        omega
      | obj fs =>
        simp only [jsonValueAccepts, List.all_eq_true, List.mem_attach, forall_true_left,
          Subtype.forall]
        intro f hf
        apply ih
        have hlt := List.sizeOf_lt_of_mem hf
        have h2 : sizeOf f.2 < sizeOf f := by
          obtain ⟨a, b⟩ := f
          simp only [Prod.mk.sizeOf_spec]
          omega
        simp only [JsonValue.obj.sizeOf_spec] at h
        omega
  intro v
  exact key (sizeOf v) v le_rfl

/-- `extraInfoAccepts` accepts exactly the JSON objects. -/
theorem extraInfoAccepts_iff (v : JsonValue) :
    extraInfoAccepts v = true ↔ ∃ fs, v = JsonValue.obj fs := by
  cases v with
  | obj fs =>
    simp only [extraInfoAccepts, List.all_eq_true, List.mem_attach, forall_true_left,
      Subtype.forall]
    constructor
    · intro _; exact ⟨fs, rfl⟩
    · intro _ f _; exact jsonValueAccepts_eq_true f.2
  | str s => simp [extraInfoAccepts]
  | num q => simp [extraInfoAccepts]
  | bool b => simp [extraInfoAccepts]
  | null => simp [extraInfoAccepts]
  | arr xs => simp [extraInfoAccepts]

/-! ## JavaScript primitives used by the routes -/

/-- A JavaScript number as far as these routes observe it:
NaN, ±Infinity, or an exact value (rational idealization of a float). -/
inductive JsNum where
  | nan
  | posInf
  | negInf
  | val (q : ℚ)
deriving DecidableEq

/-- JS `WhiteSpace`/`LineTerminator` characters recognized by `trim` and
string-to-number conversion. -/
def jsWhitespace (c : Char) : Bool :=
  c = ' ' || c = '\t' || c = '\n' || c = '\r' ||
  c = '\u000b' || c = '\u000c' || c = '\u00A0' ||
  c = '\u2028' || c = '\u2029' || c = '\uFEFF'

/-- JS `String.prototype.trim`: strip leading and trailing whitespace. -/
def jsTrim (s : String) : String :=
  ⟨((s.toList.dropWhile jsWhitespace).reverse.dropWhile jsWhitespace).reverse⟩

/-- Numeric value of a (checked) decimal digit character. -/
def digitVal (c : Char) : ℕ := c.toNat - '0'.toNat

/-- Value of a nonempty all-digit run, `none` otherwise. -/
def parseDigitsNat (cs : List Char) : Option ℕ :=
  if cs.isEmpty then none
  else if cs.all Char.isDigit then
    some (cs.foldl (fun a c => 10 * a + digitVal c) 0)
  else none

/-- Digit value in base `b` (2, 8 or 16), `none` when out of range. -/
def digitInBase (b : ℕ) (c : Char) : Option ℕ :=
  let v : ℕ :=
    if '0' ≤ c ∧ c ≤ '9' then c.toNat - '0'.toNat
    else if 'a' ≤ c ∧ c ≤ 'f' then c.toNat - 'a'.toNat + 10
    else if 'A' ≤ c ∧ c ≤ 'F' then c.toNat - 'A'.toNat + 10
    else 99
  if v < b then some v else none

/-- Value of a nonempty digit run in base `b`, `none` otherwise. -/
def parseRadixNat (b : ℕ) (cs : List Char) : Option ℕ :=
  if cs.isEmpty then none
  else cs.foldl (fun acc c => do
    let a ← acc
    let d ← digitInBase b c
    pure (b * a + d)) (some 0)

/-- Digits of an unsigned decimal mantissa `digits (. digits?)? | . digits`:
integer-part value, fraction-part value and fraction length. -/
def parseDecMantissa (cs : List Char) : Option (ℕ × ℕ × ℕ) :=
  let ip := cs.takeWhile Char.isDigit
  let rest := cs.drop ip.length
  match rest with
  | [] =>
    if ip.isEmpty then none
    else some (ip.foldl (fun a c => 10 * a + digitVal c) 0, 0, 0)
  | '.' :: fp =>
    if fp.all Char.isDigit && !(ip.isEmpty && fp.isEmpty) then
      some (ip.foldl (fun a c => 10 * a + digitVal c) 0,
            fp.foldl (fun a c => 10 * a + digitVal c) 0, fp.length)
    else none
  | _ => none

/-- The rational `sgn * (ip + fp / 10 ^ fpLen) * 10 ^ e`, assembled as a
single `mkRat` so that it evaluates by kernel reduction. -/
def decimalValue (sgn : ℤ) (ip fp fpLen : ℕ) (e : ℤ) : ℚ :=
  let n : ℤ := sgn * ((ip * 10 ^ fpLen + fp : ℕ) : ℤ)
  if 0 ≤ e then mkRat (n * 10 ^ e.toNat) (10 ^ fpLen)
  else mkRat n (10 ^ (fpLen + (-e).toNat))

/-- Split a numeric literal at an `e`/`E` exponent marker. -/
def splitExp (cs : List Char) : List Char × Option (List Char) :=
  let m := cs.takeWhile fun c => c ≠ 'e' && c ≠ 'E'
  match cs.drop m.length with
  | [] => (m, none)
  | _ :: ecs => (m, some ecs)

/-- Value of an exponent part: optional sign then one or more digits. -/
def parseExpPart : List Char → Option ℤ
  | '+' :: ds => (parseDigitsNat ds).map fun n => (n : ℤ)
  | '-' :: ds => (parseDigitsNat ds).map fun n => -(n : ℤ)
  | ds => (parseDigitsNat ds).map fun n => (n : ℤ)

/-- Signed decimal literal (mantissa with optional exponent). -/
def parseSignedDecimal (sgn : ℤ) (body : List Char) : JsNum :=
  let (m, eOpt) := splitExp body
  match parseDecMantissa m with
  | none => .nan
  | some (ip, fp, fpLen) =>
    match eOpt with
    | none => .val (decimalValue sgn ip fp fpLen 0)
    | some ecs =>
      match parseExpPart ecs with
      | none => .nan
      | some e => .val (decimalValue sgn ip fp fpLen e)

/-- JS `Number(string)` (the ECMAScript `StringNumericLiteral` grammar):
trim; empty is `0`; otherwise an optionally signed decimal literal,
`Infinity`, or an unsigned `0x`/`0o`/`0b` radix literal; anything else
is `NaN`. -/
def jsNumberOfString (s : String) : JsNum :=
  let cs := ((s.toList.dropWhile jsWhitespace).reverse.dropWhile jsWhitespace).reverse
  match cs with
  | [] => .val 0
  | c0 :: cs' =>
    let sgn : ℤ := if c0 = '-' then -1 else 1
    let body := if c0 = '-' || c0 = '+' then cs' else cs
    if body = "Infinity".toList then
      if sgn = 1 then .posInf else .negInf
    else
      match cs with
      | '0' :: x :: r =>
        if x = 'x' || x = 'X' then
          match parseRadixNat 16 r with
          | some n => .val (mkRat n 1)
          | none => .nan
        else if x = 'o' || x = 'O' then
          match parseRadixNat 8 r with
          | some n => .val (mkRat n 1)
          | none => .nan
        else if x = 'b' || x = 'B' then
          match parseRadixNat 2 r with
          | some n => .val (mkRat n 1)
          | none => .nan
        else parseSignedDecimal sgn body
      | _ => parseSignedDecimal sgn body

/-- `isNaN(n)` for a `JsNum`. -/
def jsNumIsNaN : JsNum → Bool
  | .nan => true
  | _ => false

/-- `n <= 0` for a `JsNum` (false on NaN, as in JS). -/
def jsNumLeZero : JsNum → Bool
  | .nan => false
  | .posInf => false
  | .negInf => true
  | .val q => decide (q ≤ 0)

/-- The id gate of the put/delete handlers (items.ts lines 124-127 and
170-173): `const id = Number(c.req.param('id')); if (isNaN(id) || id <= 0)`.
Returns `true` when the handler answers 400. -/
def idInvalid (s : String) : Bool :=
  jsNumIsNaN (jsNumberOfString s) || jsNumLeZero (jsNumberOfString s)

/-- Following the spec's words, not the source: the id path parameter
"must parse as an integer and be positive". -/
def specIdOk (s : String) : Bool :=
  match jsNumberOfString s with
  | .val q => decide (0 < q) && decide (q.den = 1)
  | _ => false

/-! ## Validation patterns -/

/-- The anchored regex `^\d+(\.\d{1,m})?$` shared by `quantity` /
`usedQuantity` (`m = 3`, items.ts lines 27, 34) and `price`
(`m = 2`, line 54). -/
def decimalPattern (maxFrac : ℕ) (s : String) : Bool :=
  let cs := s.toList
  let ip := cs.takeWhile Char.isDigit
  let rest := cs.drop ip.length
  !ip.isEmpty &&
    (rest.isEmpty ||
      match rest with
      | '.' :: fp => fp.all Char.isDigit && 1 ≤ fp.length && fp.length ≤ maxFrac
      | _ => false)

/-- zod's default `z.string().datetime()` pattern (items.ts lines 41, 46):
`^\d{4}-\d{2}-\d{2}T\d{2}:\d{2}:\d{2}(\.\d+)?Z$`. -/
def isIsoDatetime (s : String) : Bool :=
  match s.toList with
  | y1 :: y2 :: y3 :: y4 :: d1 :: mo1 :: mo2 :: d2 :: da1 :: da2 :: t ::
    h1 :: h2 :: c1 :: mi1 :: mi2 :: c2 :: s1 :: s2 :: rest =>
    [y1, y2, y3, y4, mo1, mo2, da1, da2, h1, h2, mi1, mi2, s1, s2].all Char.isDigit &&
    d1 = '-' && d2 = '-' && t = 'T' && c1 = ':' && c2 = ':' &&
    (rest = ['Z'] ||
      match rest with
      | '.' :: fr =>
        fr.getLast? = some 'Z' && !fr.dropLast.isEmpty && fr.dropLast.all Char.isDigit
      | _ => false)
  | _ => false

/-! ## Payloads and schema validation

A request payload as the zod schemas see it.  The outer `Option` is
JS `undefined` (field absent), the inner `Option` is an explicit JSON
`null`.  `name` and `extraInfo` are not `.nullable()` in the schema, so
they carry a single `Option` (absent or value). -/

structure RawItemPayload where
  name : Option String := none
  source : Option (Option String) := none
  category : Option (Option String) := none
  quantity : Option (Option String) := none
  unit : Option (Option String) := none
  usedQuantity : Option (Option String) := none
  productionDate : Option (Option String) := none
  expiryDate : Option (Option String) := none
  locationId : Option (Option ℤ) := none
  price : Option (Option String) := none
  extraInfo : Option JsonValue := none

/-- Field-level issues of a failed parse: field name → message. -/
abbrev FieldErrors := List (String × String)

/-- `z.string().min(1, '名称不能为空')` for a required `name`
(items.ts line 21); zod reports `Required` when the key is absent. -/
def checkRequiredName (v : Option String) : FieldErrors :=
  match v with
  | none => [("name", "Required")]
  | some s => if 1 ≤ s.length then [] else [("name", "名称不能为空")]

/-- `name` check under `createItemSchema.partial()`: only validated
when the key is present. -/
def checkOptionalName (v : Option String) : FieldErrors :=
  match v with
  | none => []
  | some s => if 1 ≤ s.length then [] else [("name", "名称不能为空")]

/-- An optional nullable `z.string().regex(...)` field: the pattern is
enforced only when a string value is present. -/
def checkOptPattern (field msg : String) (maxFrac : ℕ) (v : Option (Option String)) :
    FieldErrors :=
  match v with
  | some (some s) => if decimalPattern maxFrac s then [] else [(field, msg)]
  | _ => []

/-- An optional nullable `z.string().datetime(...)` field. -/
def checkOptDatetime (field msg : String) (v : Option (Option String)) : FieldErrors :=
  match v with
  | some (some s) => if isIsoDatetime s then [] else [(field, msg)]
  | _ => []

/-- `z.number().int().positive().optional().nullable()` (items.ts line 50). -/
def checkLocationId (v : Option (Option ℤ)) : FieldErrors :=
  match v with
  | some (some n) =>
    if 0 < n then [] else [("locationId", "Number must be greater than 0")]
  | _ => []

/-- `z.record(z.string(), jsonValueSchema).optional()` (items.ts line 58). -/
def checkExtraInfo (v : Option JsonValue) : FieldErrors :=
  match v with
  | some j => if extraInfoAccepts j then [] else [("extraInfo", "Invalid input")]
  | none => []

/-- All issues collected by `createItemSchema` (items.ts lines 20-59),
in field declaration order. -/
def createErrors (r : RawItemPayload) : FieldErrors :=
  checkRequiredName r.name ++
  checkOptPattern "quantity" "数量格式无效，最多3位小数" 3 r.quantity ++
  checkOptPattern "usedQuantity" "已使用量格式无效，最多3位小数" 3 r.usedQuantity ++
  checkOptDatetime "productionDate" "生产日期必须是 ISO 8601 格式" r.productionDate ++
  checkOptDatetime "expiryDate" "过期日期必须是 ISO 8601 格式" r.expiryDate ++
  checkLocationId r.locationId ++
  checkOptPattern "price" "价格格式无效，最多2位小数" 2 r.price ++
  checkExtraInfo r.extraInfo

/-- All issues collected by `createItemSchema.partial().extend({})`
(items.ts line 122): identical rules, every field optional. -/
def updateErrors (r : RawItemPayload) : FieldErrors :=
  checkOptionalName r.name ++
  checkOptPattern "quantity" "数量格式无效，最多3位小数" 3 r.quantity ++
  checkOptPattern "usedQuantity" "已使用量格式无效，最多3位小数" 3 r.usedQuantity ++
  checkOptDatetime "productionDate" "生产日期必须是 ISO 8601 格式" r.productionDate ++
  checkOptDatetime "expiryDate" "过期日期必须是 ISO 8601 格式" r.expiryDate ++
  checkLocationId r.locationId ++
  checkOptPattern "price" "价格格式无效，最多2位小数" 2 r.price ++
  checkExtraInfo r.extraInfo

/-- The output of a successful `createItemSchema` parse.  Identical to the
raw payload except that `name` is known to be present and `usedQuantity`
has received its zod `.default('0.0')` (applied only when the key was
absent; an explicit `null` stays `null`). -/
structure CreateData where
  name : String
  source : Option (Option String)
  category : Option (Option String)
  quantity : Option (Option String)
  unit : Option (Option String)
  usedQuantity : Option String
  productionDate : Option (Option String)
  expiryDate : Option (Option String)
  locationId : Option (Option ℤ)
  price : Option (Option String)
  extraInfo : Option JsonValue

/-- `createItemSchema.parse` (what `zValidator('form', createItemSchema)`
hands to the handler on success). -/
def validateCreateItem (r : RawItemPayload) : Except FieldErrors CreateData :=
  if createErrors r = [] then
    .ok {
      name := r.name.getD ""
      source := r.source
      category := r.category
      quantity := r.quantity
      unit := r.unit
      usedQuantity :=
        match r.usedQuantity with
        | none => some "0.0"
        | some v => v
      productionDate := r.productionDate
      expiryDate := r.expiryDate
      locationId := r.locationId
      price := r.price
      extraInfo := r.extraInfo }
  else .error (createErrors r)

/-- `createItemSchema.partial().parse`: validation is presence-gated and
value-preserving (the partial schema applies no default). -/
def validateUpdateItem (r : RawItemPayload) : Except FieldErrors RawItemPayload :=
  if updateErrors r = [] then .ok r else .error (updateErrors r)

/-! ## Field normalization and persistence arguments -/

/-- `field?.trim() || null`: trim when a string is present, then coalesce
a blank result (or `null`/`undefined`) to `null`. -/
def trimOrNull : Option (Option String) → Option String
  | some (some s) => if jsTrim s = "" then none else some (jsTrim s)
  | _ => none

/-- `field ? field : null`: pass a truthy (non-empty) string through,
anything else becomes `null`. -/
def truthyOrNull : Option (Option String) → Option String
  | some (some s) => if s = "" then none else some s
  | _ => none

/-- `field ? new Date(field) : null`; the `Date` is represented by the ISO
string it was parsed from. -/
def dateOrNull : Option (Option String) → Option String
  | some (some s) => if s = "" then none else some s
  | _ => none

/-- The `data:` object passed to `prisma.item.create` (items.ts lines
87-105).  `locationId = none` and `extraInfo = none` mean the key is
`undefined`; the handler never sends `category`. -/
structure ItemCreateArgs where
  name : String
  source : Option String
  quantity : Option String
  unit : Option String
  usedQuantity : Option String
  productionDate : Option String
  expiryDate : Option String
  locationId : Option ℤ
  price : Option String
  extraInfo : Option JsonValue

/-- The create handler's normalization (items.ts lines 87-105). -/
def createArgs (d : CreateData) : ItemCreateArgs where
  name := jsTrim d.name
  source := trimOrNull d.source
  quantity := truthyOrNull d.quantity
  unit := trimOrNull d.unit
  usedQuantity := d.usedQuantity
  productionDate := dateOrNull d.productionDate
  expiryDate := dateOrNull d.expiryDate
  locationId :=
    match d.locationId with
    | some (some n) => some n
    | _ => none
  price := truthyOrNull d.price
  extraInfo := d.extraInfo

/-- The `updateData` object built by the put handler (items.ts lines
132-146).  For each field, `none` means the key is absent from the update
(the stored value is untouched) and `some v` means the key is written with
value `v` (`some none` writes `null`). -/
structure UpdateSet where
  name : Option (Option String) := none
  source : Option (Option String) := none
  category : Option (Option String) := none
  quantity : Option (Option String) := none
  unit : Option (Option String) := none
  usedQuantity : Option (Option String) := none
  productionDate : Option (Option String) := none
  expiryDate : Option (Option String) := none
  locationId : Option (Option ℤ) := none
  price : Option (Option String) := none
  extraInfo : Option JsonValue := none

/-- items.ts lines 132-146: the `if (data.x !== undefined)` chain.  Note
the handler has no line for `category`, so that key is never written. -/
def buildUpdateData (d : RawItemPayload) : UpdateSet where
  name :=
    match d.name with
    | none => none
    | some s => some (if jsTrim s = "" then none else some (jsTrim s))
  source :=
    match d.source with
    | none => none
    | some v => some (match v with
        | some s => if jsTrim s = "" then none else some (jsTrim s)
        | none => none)
  category := none
  quantity := d.quantity
  unit :=
    match d.unit with
    | none => none
    | some v => some (match v with
        | some s => if jsTrim s = "" then none else some (jsTrim s)
        | none => none)
  usedQuantity := d.usedQuantity
  productionDate :=
    match d.productionDate with
    | none => none
    | some v => some (match v with
        | some s => if s = "" then none else some s
        | none => none)
  expiryDate :=
    match d.expiryDate with
    | none => none
    | some v => some (match v with
        | some s => if s = "" then none else some s
        | none => none)
  locationId :=
    match d.locationId with
    | none => none
    | some v => some (match v with
        | some n => some n
        | none => none)
  price := d.price
  extraInfo := d.extraInfo

/-! ## Storage -/

/-- An Item row as the routes observe it (associations elided). -/
structure StoredItem where
  id : ℤ
  name : Option String := none
  source : Option String := none
  category : Option String := none
  quantity : Option String := none
  unit : Option String := none
  usedQuantity : Option String := none
  productionDate : Option String := none
  expiryDate : Option String := none
  locationId : Option ℤ := none
  price : Option String := none
  extraInfo : Option JsonValue := none

/-- Modelled from the spec: the persistence client (the generated Prisma
client, which is not under `src/`) applies an update set by overwriting
exactly the keys present in it — "Persist only those fields" — and leaves
every other column untouched. -/
def applyUpdateSet (it : StoredItem) (u : UpdateSet) : StoredItem where
  id := it.id
  name := match u.name with | none => it.name | some v => v
  source := match u.source with | none => it.source | some v => v
  category := match u.category with | none => it.category | some v => v
  quantity := match u.quantity with | none => it.quantity | some v => v
  unit := match u.unit with | none => it.unit | some v => v
  usedQuantity := match u.usedQuantity with | none => it.usedQuantity | some v => v
  productionDate := match u.productionDate with | none => it.productionDate | some v => v
  expiryDate := match u.expiryDate with | none => it.expiryDate | some v => v
  locationId := match u.locationId with | none => it.locationId | some v => v
  price := match u.price with | none => it.price | some v => v
  extraInfo := match u.extraInfo with | none => it.extraInfo | some j => some j

/-! ## Response envelope (apps/backend/src/lib/utils.ts) -/

/-- A success payload: an item, the item list, or a message object. -/
inductive ResponseData where
  | item (it : StoredItem)
  | items (xs : List StoredItem)
  | message (m : String)

/-- The JSON body of a route response: the `{success: true, data}` /
`{success: false, error}` envelope, or the zod issue report emitted by
`zValidator` when schema validation fails. -/
inductive ResponseBody where
  | envelopeOk (data : ResponseData)
  | envelopeErr (error : String)
  | zodError (issues : FieldErrors)

/-- Status code plus JSON body. -/
structure HttpResponse where
  status : ℕ
  body : ResponseBody

/-- `successResponse(data, status = 200)` (utils.ts lines 1-3); the
`Option` status argument models the JS default parameter. -/
def successResponse (data : ResponseData) (status : Option ℕ) : HttpResponse :=
  { status := status.getD 200, body := .envelopeOk data }

/-- `errorResponse(message, status = 500)` (utils.ts lines 5-7). -/
def errorResponse (message : String) (status : Option ℕ) : HttpResponse :=
  { status := status.getD 500, body := .envelopeErr message }

/-- `true` on the uniform `{success, data|error}` envelope shapes. -/
def ResponseBody.isEnvelope : ResponseBody → Bool
  | .envelopeOk _ => true
  | .envelopeErr _ => true
  | .zodError _ => false

/-! ## Route handlers (items.ts lines 62-185)

Persistence is an external collaborator: each route takes the function
`db` standing for the Prisma call it makes, and the `Bool` it returns
alongside the response records whether that call was reached. -/

/-- Outcome of one persistence call: a result, a
`PrismaClientKnownRequestError` with its `code`, or any other thrown
error.  The `detail` strings carry whatever the driver put in the
exception. -/
inductive PersistOutcome (α : Type) where
  | ok (val : α)
  | knownRequestError (code : String) (detail : String)
  | otherError (detail : String)

/-- GET `/` (items.ts lines 62-79). -/
def listRoute (db : PersistOutcome (List StoredItem)) : HttpResponse :=
  match db with
  | .ok xs => successResponse (.items xs) none
  | .knownRequestError _ _ => errorResponse "获取物品列表失败" (some 500)
  | .otherError _ => errorResponse "获取物品列表失败" (some 500)

/-- POST `/` (items.ts lines 79-119): `zValidator('form', createItemSchema)`
runs first; on success the handler normalizes the payload and calls
`prisma.item.create`. -/
def createRoute (raw : RawItemPayload)
    (db : ItemCreateArgs → PersistOutcome StoredItem) : HttpResponse × Bool :=
  match validateCreateItem raw with
  | .error errs => ({ status := 400, body := .zodError errs }, false)
  | .ok d =>
    match db (createArgs d) with
    | .ok it => (successResponse (.item it) (some 201), true)
    | .knownRequestError _ _ => (errorResponse "创建物品失败" (some 500), true)
    | .otherError _ => (errorResponse "创建物品失败" (some 500), true)

/-- PUT `/:id` (items.ts lines 120-168): the `zValidator` middleware runs
before the handler body; the handler then applies the id gate, builds
`updateData`, and calls `prisma.item.update`. -/
def updateRoute (idStr : String) (raw : RawItemPayload)
    (db : JsNum → UpdateSet → PersistOutcome StoredItem) : HttpResponse × Bool :=
  match validateUpdateItem raw with
  | .error errs => ({ status := 400, body := .zodError errs }, false)
  | .ok d =>
    if idInvalid idStr then (errorResponse "无效的物品 ID" (some 400), false)
    else
      match db (jsNumberOfString idStr) (buildUpdateData d) with
      | .ok it => (successResponse (.item it) none, true)
      | .knownRequestError code _ =>
        if code = "P2025" then (errorResponse "物品未找到" (some 404), true)
        else (errorResponse "更新物品失败" (some 500), true)
      | .otherError _ => (errorResponse "更新物品失败" (some 500), true)

/-- DELETE `/:id` (items.ts lines 169-185). -/
def deleteRoute (idStr : String)
    (db : JsNum → PersistOutcome Unit) : HttpResponse × Bool :=
  if idInvalid idStr then (errorResponse "无效的物品 ID" (some 400), false)
  else
    match db (jsNumberOfString idStr) with
    | .ok _ => (successResponse (.message "物品已成功删除") none, true)
    | .knownRequestError code _ =>
      if code = "P2025" then (errorResponse "物品未找到" (some 404), true)
      else (errorResponse "删除物品失败" (some 500), true)
    | .otherError _ => (errorResponse "删除物品失败" (some 500), true)

/-- Modelled from the spec: `prisma.item.update` (generated client, not
under `src/`) signals a missing record with the well-known
`PrismaClientKnownRequestError` code `P2025`; on a hit it persists exactly
the keys of the update set. -/
def prismaUpdate (store : List StoredItem) (id : JsNum) (u : UpdateSet) :
    PersistOutcome StoredItem :=
  match id with
  | .val q =>
    match store.find? (fun it => decide (q.num = it.id ∧ q.den = 1)) with
    | some it => .ok (applyUpdateSet it u)
    | none => .knownRequestError "P2025" "Record to update not found."
  | _ => .otherError "invalid id argument"

/-- Modelled from the spec: `prisma.item.delete` (generated client, not
under `src/`) signals a missing record with code `P2025`. -/
def prismaDelete (store : List StoredItem) (id : JsNum) : PersistOutcome Unit :=
  match id with
  | .val q =>
    if store.any (fun it => decide (q.num = it.id ∧ q.den = 1)) then .ok ()
    else .knownRequestError "P2025" "Record to delete does not exist."
  | _ => .otherError "invalid id argument"

/-! ## Claims -/

/-- C8: `successResponse` and `errorResponse` are pure, total functions of
their inputs: for any payload, `successResponse` yields the body
`{success: true, data: <payload>}` with the given status (default 200);
for any message, `errorResponse` yields `{success: false, error: <message>}`
with the given status (default 500). -/
theorem claim_C8 (data : ResponseData) (msg : String) (s t : ℕ) :
    successResponse data none = { status := 200, body := .envelopeOk data } ∧
    successResponse data (some s) = { status := s, body := .envelopeOk data } ∧
    errorResponse msg none = { status := 500, body := .envelopeErr msg } ∧
    errorResponse msg (some t) = { status := t, body := .envelopeErr msg } :=
  ⟨rfl, rfl, rfl, rfl⟩

/-- C1 counterexample: the id `"1.5"` does not parse as a positive
integer, yet the Update handler does not answer 400: the id gate only
checks `isNaN(id) || id <= 0`, so `1.5` passes and the persistence call
is reached (here returning success, answered with 200). -/
theorem claim_C1_counterexample :
    specIdOk "1.5" = false ∧
    updateRoute "1.5" {} (fun _ _ => .ok { id := 1 }) =
      (successResponse (.item { id := 1 }) none, true) := by
  exact ⟨by decide, rfl⟩

/-- C1 (amended): for Update and Delete, an id whose `Number()` conversion
is NaN or ≤ 0 — including `"0"`, `"-1"` and non-numeric segments — is
answered with the 400 client-error envelope and no persistence call is
made (for Update, after the validation middleware has accepted the
payload); a positive non-integer id such as `"1.5"` is not rejected by
this gate. -/
theorem claim_C1 (idStr : String) (h : idInvalid idStr = true) :
    (∀ (raw d : RawItemPayload) (db : JsNum → UpdateSet → PersistOutcome StoredItem),
       validateUpdateItem raw = .ok d →
       updateRoute idStr raw db = (errorResponse "无效的物品 ID" (some 400), false)) ∧
    (∀ db : JsNum → PersistOutcome Unit,
       deleteRoute idStr db = (errorResponse "无效的物品 ID" (some 400), false)) ∧
    idInvalid "0" = true ∧ idInvalid "-1" = true ∧ idInvalid "abc" = true := by
  refine ⟨?_, ?_, by decide, by decide, by decide⟩
  · intro raw d db hv
    unfold updateRoute
    rw [hv, h]
    rfl
  · intro db
    unfold deleteRoute
    rw [h]
    rfl

/-- C1 witness: concrete invalid ids `"0"` and `"-1"` are rejected with
the 400 envelope and no persistence call. -/
theorem claim_C1_witness :
    updateRoute "0" {} (fun _ _ => .ok { id := 1 }) =
      (errorResponse "无效的物品 ID" (some 400), false) ∧
    deleteRoute "-1" (fun _ => .ok ()) =
      (errorResponse "无效的物品 ID" (some 400), false) :=
  ⟨(claim_C1 "0" (by decide)).1 {} {} _ rfl, (claim_C1 "-1" (by decide)).2.1 _⟩

/-- C9: the claim's invariant ("an item's stored name is a non-empty
trimmed string") is broken by the code at the concrete payload
`{name: " "}`: the single space passes `z.string().min(1)`, Create then
persists `name = ""`, and Update places `name = null` in the update set
(`data.name?.trim() || null`). -/
theorem claim_C9 :
    validateCreateItem { name := some " " } =
      .ok { name := " ", source := none, category := none, quantity := none,
            unit := none, usedQuantity := some "0.0", productionDate := none,
            expiryDate := none, locationId := none, price := none,
            extraInfo := none } ∧
    (createArgs { name := " ", source := none, category := none, quantity := none,
                  unit := none, usedQuantity := some "0.0", productionDate := none,
                  expiryDate := none, locationId := none, price := none,
                  extraInfo := none }).name = "" ∧
    validateUpdateItem { name := some " " } = .ok { name := some " " } ∧
    (buildUpdateData { name := some " " }).name = some none :=
  ⟨rfl, rfl, rfl, rfl⟩

/-- C10: Create coerces an explicitly-null `locationId` to `undefined`
(`data.locationId ?? undefined`), making it indistinguishable from an
omitted field in the persistence arguments, while Update writes the same
explicit null through to storage (`data.locationId ?? null`). -/
theorem claim_C10 (d : CreateData) (u : RawItemPayload) (it : StoredItem)
    (hu : u.locationId = some none) :
    createArgs { d with locationId := some none } =
      createArgs { d with locationId := none } ∧
    (createArgs { d with locationId := some none }).locationId = none ∧
    (buildUpdateData u).locationId = some none ∧
    (applyUpdateSet it (buildUpdateData u)).locationId = none := by
  refine ⟨rfl, rfl, ?_, ?_⟩
  · simp [buildUpdateData, hu]
  · simp [applyUpdateSet, buildUpdateData, hu]

/-- C10 witness: a concrete create payload with `locationId: null` and a
concrete update payload with `locationId: null`. -/
theorem claim_C10_witness :
    createArgs { name := "a", source := none, category := none, quantity := none,
                 unit := none, usedQuantity := some "0.0", productionDate := none,
                 expiryDate := none, locationId := some none, price := none,
                 extraInfo := none } =
      createArgs { name := "a", source := none, category := none, quantity := none,
                   unit := none, usedQuantity := some "0.0", productionDate := none,
                   expiryDate := none, locationId := none, price := none,
                   extraInfo := none } ∧
    (buildUpdateData { locationId := some none }).locationId = some none ∧
    (applyUpdateSet { id := 1, locationId := some 7 }
        (buildUpdateData { locationId := some none })).locationId = none := by
  have h := claim_C10
    { name := "a", source := none, category := none, quantity := none,
      unit := none, usedQuantity := some "0.0", productionDate := none,
      expiryDate := none, locationId := some none, price := none, extraInfo := none }
    { locationId := some none } { id := 1, locationId := some 7 } rfl
  exact ⟨h.1, h.2.2.1, h.2.2.2⟩

/-- C2 counterexample: the Create schema does not accept every JSON value
for `extraInfo` — a top-level string such as `"x"` is rejected, because
the field's schema is `z.record(z.string(), jsonValueSchema)`, not
`jsonValueSchema` itself. -/
theorem claim_C2_counterexample :
    extraInfoAccepts (JsonValue.str "x") = false ∧
    validateCreateItem { name := some "a", extraInfo := some (JsonValue.str "x") } =
      .error [("extraInfo", "Invalid input")] :=
  ⟨rfl, rfl⟩

/-- C2 (amended): the Create schema accepts, for `extraInfo`, exactly the
JSON *objects* (string-keyed maps whose values may be any JSON value,
recursively to any depth); non-object top-level values are rejected.  When
`extraInfo` is provided on a valid create, the value passed to persistence
is the input value verbatim. -/
theorem claim_C2 :
    (∀ v : JsonValue, extraInfoAccepts v = true ↔ ∃ fs, v = JsonValue.obj fs) ∧
    ∀ (raw : RawItemPayload) (d : CreateData),
      validateCreateItem raw = .ok d →
      (createArgs d).extraInfo = raw.extraInfo := by
  refine ⟨extraInfoAccepts_iff, ?_⟩
  intro raw d h
  unfold validateCreateItem at h
  split_ifs at h
  cases h
  rfl

/-- C2 witness: a concrete valid create whose `extraInfo` object reaches
the persistence arguments verbatim. -/
theorem claim_C2_witness :
    (createArgs { name := "a", source := none, category := none, quantity := none,
                  unit := none, usedQuantity := some "0.0", productionDate := none,
                  expiryDate := none, locationId := none, price := none,
                  extraInfo := some (JsonValue.obj [("a", JsonValue.num 1)]) }).extraInfo =
      some (JsonValue.obj [("a", JsonValue.num 1)]) := by
  apply claim_C2.2 { name := some "a",
                     extraInfo := some (JsonValue.obj [("a", JsonValue.num 1)]) }
  have h : extraInfoAccepts (JsonValue.obj [("a", JsonValue.num 1)]) = true :=
    (extraInfoAccepts_iff _).2 ⟨_, rfl⟩
  unfold validateCreateItem
  simp [createErrors, checkRequiredName, checkOptPattern, checkOptDatetime,
    checkLocationId, checkExtraInfo, h]
  decide

/-- C5: on every valid Create, the `name` passed to persistence is the
input name trimmed of surrounding whitespace, and `usedQuantity` is the
string `"0.0"` whenever it was omitted from the input. -/
theorem claim_C5 (raw : RawItemPayload) (d : CreateData) (s : String)
    (h : validateCreateItem raw = .ok d) (hn : raw.name = some s) :
    (createArgs d).name = jsTrim s ∧
    (raw.usedQuantity = none → (createArgs d).usedQuantity = some "0.0") := by
  unfold validateCreateItem at h
  split_ifs at h
  cases h
  constructor
  · show jsTrim (raw.name.getD "") = jsTrim s
    rw [hn]
    rfl
  · intro hu
    show (match raw.usedQuantity with
          | none => some "0.0"
          | some v => v) = some "0.0"
    rw [hu]

/-- C5 witness: the create payload `{name: "  milk  "}` persists
`name = "milk"` and `usedQuantity = "0.0"`. -/
theorem claim_C5_witness :
    jsTrim "  milk  " = "milk" ∧
    (createArgs { name := "  milk  ", source := none, category := none,
                  quantity := none, unit := none, usedQuantity := some "0.0",
                  productionDate := none, expiryDate := none, locationId := none,
                  price := none, extraInfo := none }).name = jsTrim "  milk  " ∧
    (createArgs { name := "  milk  ", source := none, category := none,
                  quantity := none, unit := none, usedQuantity := some "0.0",
                  productionDate := none, expiryDate := none, locationId := none,
                  price := none, extraInfo := none }).usedQuantity = some "0.0" := by
  have h := claim_C5 { name := some "  milk  " }
    { name := "  milk  ", source := none, category := none,
      quantity := none, unit := none, usedQuantity := some "0.0",
      productionDate := none, expiryDate := none, locationId := none,
      price := none, extraInfo := none } "  milk  " rfl rfl
  exact ⟨by decide, h.1, h.2 rfl⟩

/-- C3 counterexample: the update set does not contain exactly the keys
present in the validated payload — `category` is validated by the schema
but the handler has no `if (data.category !== undefined)` line, so a
payload containing only `category` yields an empty update set and leaves
the stored `category` untouched. -/
theorem claim_C3_counterexample :
    ({ category := some (some "food") } : RawItemPayload).category ≠ none ∧
    validateUpdateItem { category := some (some "food") } =
      .ok { category := some (some "food") } ∧
    buildUpdateData { category := some (some "food") } = {} ∧
    applyUpdateSet { id := 1, category := some "old" }
        (buildUpdateData { category := some (some "food") }) =
      { id := 1, category := some "old" } := by
  refine ⟨by decide, rfl, rfl, rfl⟩

/-- C3 (amended): for every field the handler copies (all schema fields
except `category`), the update set contains that key exactly when the key
is explicitly present — even with an explicit null — in the validated
payload; `category` is never in the update set; and every key absent from
the update set (hence every field absent from the payload, `category`,
and `id`) is left untouched in storage.  In particular an update whose
payload contains only `price` leaves `name`, `quantity` and all other
fields unchanged. -/
theorem claim_C3 (d : RawItemPayload) (it : StoredItem) :
    ((buildUpdateData d).name = none ↔ d.name = none) ∧
    ((buildUpdateData d).source = none ↔ d.source = none) ∧
    ((buildUpdateData d).quantity = none ↔ d.quantity = none) ∧
    ((buildUpdateData d).unit = none ↔ d.unit = none) ∧
    ((buildUpdateData d).usedQuantity = none ↔ d.usedQuantity = none) ∧
    ((buildUpdateData d).productionDate = none ↔ d.productionDate = none) ∧
    ((buildUpdateData d).expiryDate = none ↔ d.expiryDate = none) ∧
    ((buildUpdateData d).locationId = none ↔ d.locationId = none) ∧
    ((buildUpdateData d).price = none ↔ d.price = none) ∧
    ((buildUpdateData d).extraInfo = none ↔ d.extraInfo = none) ∧
    (buildUpdateData d).category = none ∧
    (applyUpdateSet it (buildUpdateData d)).id = it.id ∧
    (applyUpdateSet it (buildUpdateData d)).category = it.category ∧
    (d.name = none → (applyUpdateSet it (buildUpdateData d)).name = it.name) ∧
    (d.source = none → (applyUpdateSet it (buildUpdateData d)).source = it.source) ∧
    (d.quantity = none → (applyUpdateSet it (buildUpdateData d)).quantity = it.quantity) ∧
    (d.unit = none → (applyUpdateSet it (buildUpdateData d)).unit = it.unit) ∧
    (d.usedQuantity = none →
      (applyUpdateSet it (buildUpdateData d)).usedQuantity = it.usedQuantity) ∧
    (d.productionDate = none →
      (applyUpdateSet it (buildUpdateData d)).productionDate = it.productionDate) ∧
    (d.expiryDate = none →
      (applyUpdateSet it (buildUpdateData d)).expiryDate = it.expiryDate) ∧
    (d.locationId = none →
      (applyUpdateSet it (buildUpdateData d)).locationId = it.locationId) ∧
    (d.price = none → (applyUpdateSet it (buildUpdateData d)).price = it.price) ∧
    (d.extraInfo = none →
      (applyUpdateSet it (buildUpdateData d)).extraInfo = it.extraInfo) := by
  refine ⟨?_, ?_, ?_, ?_, ?_, ?_, ?_, ?_, ?_, ?_, rfl, rfl, rfl,
    ?_, ?_, ?_, ?_, ?_, ?_, ?_, ?_, ?_, ?_⟩
  · cases hd : d.name <;> simp [buildUpdateData, hd]
  · cases hd : d.source <;> simp [buildUpdateData, hd]
  · cases hd : d.quantity <;> simp [buildUpdateData, hd]
  · cases hd : d.unit <;> simp [buildUpdateData, hd]
  · cases hd : d.usedQuantity <;> simp [buildUpdateData, hd]
  · cases hd : d.productionDate <;> simp [buildUpdateData, hd]
  · cases hd : d.expiryDate <;> simp [buildUpdateData, hd]
  · cases hd : d.locationId <;> simp [buildUpdateData, hd]
  · cases hd : d.price <;> simp [buildUpdateData, hd]
  · cases hd : d.extraInfo <;> simp [buildUpdateData, hd]
  · intro h; simp [applyUpdateSet, buildUpdateData, h]
  · intro h; simp [applyUpdateSet, buildUpdateData, h]
  · intro h; simp [applyUpdateSet, buildUpdateData, h]
  · intro h; simp [applyUpdateSet, buildUpdateData, h]
  · intro h; simp [applyUpdateSet, buildUpdateData, h]
  · intro h; simp [applyUpdateSet, buildUpdateData, h]
  · intro h; simp [applyUpdateSet, buildUpdateData, h]
  · intro h; simp [applyUpdateSet, buildUpdateData, h]
  · intro h; simp [applyUpdateSet, buildUpdateData, h]
  · intro h; simp [applyUpdateSet, buildUpdateData, h]

/-- C3 witness: an update whose payload contains only
`{price: "9.99"}` leaves `name` and `quantity` unchanged while `price`
is in the update set. -/
theorem claim_C3_witness :
    (applyUpdateSet { id := 1, name := some "x", quantity := some "2" }
        (buildUpdateData { price := some (some "9.99") })).name = some "x" ∧
    (applyUpdateSet { id := 1, name := some "x", quantity := some "2" }
        (buildUpdateData { price := some (some "9.99") })).quantity = some "2" ∧
    (buildUpdateData { price := some (some "9.99") }).price = some (some "9.99") := by
  obtain ⟨-, -, -, -, -, -, -, -, -, -, -, -, -, hname, -, hqty, -, -, -, -, -, -, -⟩ :=
    claim_C3 { price := some (some "9.99") } { id := 1, name := some "x", quantity := some "2" }
  exact ⟨hname rfl, hqty rfl, rfl⟩

/-- Helper: a clean `checkOptPattern` component forces the pattern to hold
on any string value present in the field. -/
theorem checkOptPattern_eq_nil {field msg : String} {m : ℕ} {v : Option (Option String)}
    (h : checkOptPattern field msg m v = []) :
    ∀ t, v = some (some t) → decimalPattern m t = true := by
  intro t hv
  subst hv
  by_cases hp : decimalPattern m t = true
  · exact hp
  · simp [checkOptPattern, hp] at h

/-- C4: any payload whose `quantity` is a string failing
`^\d+(\.\d{1,3})?$` is rejected by the validation gate of both Create and
Update with a field-level error on `quantity`, before any persistence call
(the route returns the 400 validation response with the persistence flag
still false); dually, payloads that pass validation can only carry
`usedQuantity` strings matching the same 3-decimal pattern and `price`
strings matching the 2-decimal pattern `^\d+(\.\d{1,2})?$`. -/
theorem claim_C4 (raw : RawItemPayload) :
    (∀ s, raw.quantity = some (some s) → decimalPattern 3 s = false →
      ("quantity", "数量格式无效，最多3位小数") ∈ createErrors raw ∧
      validateCreateItem raw = .error (createErrors raw) ∧
      ("quantity", "数量格式无效，最多3位小数") ∈ updateErrors raw ∧
      validateUpdateItem raw = .error (updateErrors raw) ∧
      (∀ db, createRoute raw db =
        ({ status := 400, body := .zodError (createErrors raw) }, false)) ∧
      (∀ idStr db, updateRoute idStr raw db =
        ({ status := 400, body := .zodError (updateErrors raw) }, false))) ∧
    (∀ d, validateCreateItem raw = .ok d →
      (∀ t, d.usedQuantity = some t → decimalPattern 3 t = true) ∧
      (∀ t, d.price = some (some t) → decimalPattern 2 t = true)) ∧
    (∀ d, validateUpdateItem raw = .ok d →
      (∀ t, d.usedQuantity = some (some t) → decimalPattern 3 t = true) ∧
      (∀ t, d.price = some (some t) → decimalPattern 2 t = true)) := by
  refine ⟨?_, ?_, ?_⟩
  · intro s hq hpat
    have hmemc : ("quantity", "数量格式无效，最多3位小数") ∈ createErrors raw := by
      simp [createErrors, checkOptPattern, hq, hpat]
    have hmemu : ("quantity", "数量格式无效，最多3位小数") ∈ updateErrors raw := by
      simp [updateErrors, checkOptPattern, hq, hpat]
    have hc : validateCreateItem raw = .error (createErrors raw) := by
      unfold validateCreateItem
      rw [if_neg (List.ne_nil_of_mem hmemc)]
    have hu : validateUpdateItem raw = .error (updateErrors raw) := by
      unfold validateUpdateItem
      rw [if_neg (List.ne_nil_of_mem hmemu)]
    refine ⟨hmemc, hc, hmemu, hu, ?_, ?_⟩
    · intro db
      unfold createRoute
      rw [hc]
    · intro idStr db
      unfold updateRoute
      rw [hu]
  · intro d h
    unfold validateCreateItem at h
    split_ifs at h with hc
    cases h
    simp only [createErrors, List.append_eq_nil] at hc
    obtain ⟨⟨⟨⟨⟨⟨⟨-, -⟩, huq⟩, -⟩, -⟩, -⟩, hpr⟩, -⟩ := hc
    constructor
    · intro t ht
      revert ht
      show (match raw.usedQuantity with
            | none => some "0.0"
            | some v => v) = some t → _
      cases hru : raw.usedQuantity with
      | none =>
        intro ht
        cases ht
        decide
      | some v =>
        intro ht
        subst ht
        exact checkOptPattern_eq_nil (hru ▸ huq) t rfl
    · intro t ht
      exact checkOptPattern_eq_nil hpr t ht
  · intro d h
    unfold validateUpdateItem at h
    split_ifs at h with hc
    cases h
    simp only [updateErrors, List.append_eq_nil] at hc
    obtain ⟨⟨⟨⟨⟨⟨⟨-, -⟩, huq⟩, -⟩, -⟩, -⟩, hpr⟩, -⟩ := hc
    exact ⟨fun t ht => checkOptPattern_eq_nil huq t ht,
           fun t ht => checkOptPattern_eq_nil hpr t ht⟩

/-- C4 witness: `quantity` values `"12.3456"` and `"abc"` are rejected
with a field-level `quantity` error and the create route never reaches
persistence. -/
theorem claim_C4_witness :
    validateCreateItem { name := some "a", quantity := some (some "12.3456") } =
      .error (createErrors { name := some "a", quantity := some (some "12.3456") }) ∧
    ("quantity", "数量格式无效，最多3位小数") ∈
      createErrors { name := some "a", quantity := some (some "12.3456") } ∧
    createRoute { name := some "a", quantity := some (some "abc") }
        (fun _ => .ok { id := 1 }) =
      ({ status := 400,
         body := .zodError (createErrors { name := some "a", quantity := some (some "abc") }) },
       false) := by
  have h1 := (claim_C4 { name := some "a", quantity := some (some "12.3456") }).1
    "12.3456" rfl (by decide)
  have h2 := (claim_C4 { name := some "a", quantity := some (some "abc") }).1
    "abc" rfl (by decide)
  exact ⟨h1.2.1, h1.1, h2.2.2.2.2.1 _⟩

/-- C6: for Update and Delete, a persistence failure with the known
request-error code `P2025` — and only that code — is translated to a 404
envelope with the localized not-found message (any other known code gets
the generic 500); consequently Delete is not idempotent: against the
spec-modelled Prisma client, deleting an id that matches no stored record
yields 404, never 200, and so does updating it. -/
theorem claim_C6 (idStr : String) (raw d : RawItemPayload) (code detail : String)
    (hv : validateUpdateItem raw = .ok d) (hid : idInvalid idStr = false) :
    (∀ db, db (jsNumberOfString idStr) (buildUpdateData d) = .knownRequestError code detail →
      updateRoute idStr raw db =
        (if code = "P2025" then (errorResponse "物品未找到" (some 404), true)
         else (errorResponse "更新物品失败" (some 500), true))) ∧
    (∀ db, db (jsNumberOfString idStr) = .knownRequestError code detail →
      deleteRoute idStr db =
        (if code = "P2025" then (errorResponse "物品未找到" (some 404), true)
         else (errorResponse "删除物品失败" (some 500), true))) ∧
    (∀ (store : List StoredItem) (q : ℚ), jsNumberOfString idStr = .val q →
      (∀ it, it ∈ store → ¬(q.num = it.id ∧ q.den = 1)) →
      deleteRoute idStr (prismaDelete store) =
        (errorResponse "物品未找到" (some 404), true) ∧
      updateRoute idStr raw (prismaUpdate store) =
        (errorResponse "物品未找到" (some 404), true)) := by
  refine ⟨?_, ?_, ?_⟩
  · intro db hdb
    simp [updateRoute, hv, hid, hdb]
  · intro db hdb
    simp [deleteRoute, hid, hdb]
  · intro store q hq hnone
    have ha : store.any (fun it => decide (q.num = it.id ∧ q.den = 1)) = false := by
      rw [List.any_eq_false]
      intro it hit
      simp only [decide_eq_true_eq]
      exact hnone it hit
    have hf : store.find? (fun it => decide (q.num = it.id ∧ q.den = 1)) = none := by
      rw [List.find?_eq_none]
      intro it hit
      simp only [decide_eq_true_eq]
      exact hnone it hit
    have hdel : prismaDelete store (JsNum.val q) =
        .knownRequestError "P2025" "Record to delete does not exist." := by
      show (if (store.any fun it => decide (q.num = it.id ∧ q.den = 1)) = true
            then PersistOutcome.ok ()
            else PersistOutcome.knownRequestError "P2025"
                   "Record to delete does not exist.") = _
      rw [ha]
      rfl
    have hupd : prismaUpdate store (JsNum.val q) (buildUpdateData d) =
        .knownRequestError "P2025" "Record to update not found." := by
      show (match store.find? (fun it => decide (q.num = it.id ∧ q.den = 1)) with
            | some it => PersistOutcome.ok (applyUpdateSet it (buildUpdateData d))
            | none => PersistOutcome.knownRequestError "P2025"
                        "Record to update not found.") = _
      rw [hf]
    constructor
    · simp [deleteRoute, hid, hq, hdel]
    · simp [updateRoute, hv, hid, hq, hupd]

/-- C6 witness: deleting and updating id 5 against an empty store answer
404, and a known request error with a code other than `P2025` answers the
generic 500. -/
theorem claim_C6_witness :
    deleteRoute "5" (prismaDelete []) = (errorResponse "物品未找到" (some 404), true) ∧
    updateRoute "5" { name := some "a" } (prismaUpdate []) =
      (errorResponse "物品未找到" (some 404), true) ∧
    updateRoute "5" { name := some "a" } (fun _ _ => .knownRequestError "P2003" "fk") =
      (errorResponse "更新物品失败" (some 500), true) := by
  obtain ⟨hknown, -, hmissing⟩ :=
    claim_C6 "5" { name := some "a" } { name := some "a" } "P2003" "fk" rfl (by decide)
  obtain ⟨hdel, hupd⟩ := hmissing [] (mkRat 5 1) (by decide) (by simp)
  exact ⟨hdel, hupd, hknown _ rfl⟩

/-- C7: every route is a total function of the persistence outcome: the
response body is always one of the two envelope shapes once the payload
has passed validation, and every persistence failure other than the
recognized not-found code is answered with the fixed generic localized
message and status 500, independent of the exception's content — the raw
error never reaches the client. -/
theorem claim_C7 (lst : PersistOutcome (List StoredItem)) (raw d : RawItemPayload)
    (dc : CreateData) (idStr : String)
    (dbC : ItemCreateArgs → PersistOutcome StoredItem)
    (dbU : JsNum → UpdateSet → PersistOutcome StoredItem)
    (dbD : JsNum → PersistOutcome Unit)
    (hvc : validateCreateItem raw = .ok dc)
    (hvu : validateUpdateItem raw = .ok d)
    (hid : idInvalid idStr = false) :
    (listRoute lst).body.isEnvelope = true ∧
    (∀ detail, listRoute (.otherError detail) = errorResponse "获取物品列表失败" (some 500)) ∧
    (∀ code detail, listRoute (.knownRequestError code detail) =
      errorResponse "获取物品列表失败" (some 500)) ∧
    (createRoute raw dbC).1.body.isEnvelope = true ∧
    (∀ detail, dbC (createArgs dc) = .otherError detail →
      createRoute raw dbC = (errorResponse "创建物品失败" (some 500), true)) ∧
    (∀ code detail, dbC (createArgs dc) = .knownRequestError code detail →
      createRoute raw dbC = (errorResponse "创建物品失败" (some 500), true)) ∧
    (updateRoute idStr raw dbU).1.body.isEnvelope = true ∧
    (∀ detail, dbU (jsNumberOfString idStr) (buildUpdateData d) = .otherError detail →
      updateRoute idStr raw dbU = (errorResponse "更新物品失败" (some 500), true)) ∧
    (∀ code detail, code ≠ "P2025" →
      dbU (jsNumberOfString idStr) (buildUpdateData d) = .knownRequestError code detail →
      updateRoute idStr raw dbU = (errorResponse "更新物品失败" (some 500), true)) ∧
    (deleteRoute idStr dbD).1.body.isEnvelope = true ∧
    (∀ detail, dbD (jsNumberOfString idStr) = .otherError detail →
      deleteRoute idStr dbD = (errorResponse "删除物品失败" (some 500), true)) ∧
    (∀ code detail, code ≠ "P2025" →
      dbD (jsNumberOfString idStr) = .knownRequestError code detail →
      deleteRoute idStr dbD = (errorResponse "删除物品失败" (some 500), true)) := by
  refine ⟨?_, ?_, ?_, ?_, ?_, ?_, ?_, ?_, ?_, ?_, ?_, ?_⟩
  · cases lst <;> rfl
  · intro detail
    rfl
  · intro code detail
    rfl
  · cases h : dbC (createArgs dc) <;> simp [createRoute, hvc, h, ResponseBody.isEnvelope,
      successResponse, errorResponse]
  · intro detail h
    simp [createRoute, hvc, h]
  · intro code detail h
    simp [createRoute, hvc, h]
  · cases h : dbU (jsNumberOfString idStr) (buildUpdateData d) with
    | ok it => simp [updateRoute, hvu, hid, h, ResponseBody.isEnvelope, successResponse]
    | knownRequestError code detail =>
      by_cases hc : code = "P2025" <;>
        simp [updateRoute, hvu, hid, h, hc, ResponseBody.isEnvelope, errorResponse]
    | otherError detail =>
      simp [updateRoute, hvu, hid, h, ResponseBody.isEnvelope, errorResponse]
  · intro detail h
    simp [updateRoute, hvu, hid, h]
  · intro code detail hc h
    simp [updateRoute, hvu, hid, h, hc]
  · cases h : dbD (jsNumberOfString idStr) with
    | ok u => simp [deleteRoute, hid, h, ResponseBody.isEnvelope, successResponse]
    | knownRequestError code detail =>
      by_cases hc : code = "P2025" <;>
        simp [deleteRoute, hid, h, hc, ResponseBody.isEnvelope, errorResponse]
    | otherError detail =>
      simp [deleteRoute, hid, h, ResponseBody.isEnvelope, errorResponse]
  · intro detail h
    simp [deleteRoute, hid, h]
  · intro code detail hc h
    simp [deleteRoute, hid, h, hc]

/-- C7 witness: concrete internal failures on every route — thrown
exceptions and a known request error with the non-not-found code
`"P2003"` — are answered with the fixed generic 500 envelope, never the
exception text. -/
theorem claim_C7_witness :
    listRoute (.otherError "disk failure") = errorResponse "获取物品列表失败" (some 500) ∧
    listRoute (.knownRequestError "P2003" "fk violation") =
      errorResponse "获取物品列表失败" (some 500) ∧
    createRoute { name := some "a" } (fun _ => .otherError "boom") =
      (errorResponse "创建物品失败" (some 500), true) ∧
    updateRoute "7" { name := some "a" } (fun _ _ => .otherError "boom") =
      (errorResponse "更新物品失败" (some 500), true) ∧
    deleteRoute "7" (fun _ => .otherError "boom") =
      (errorResponse "删除物品失败" (some 500), true) ∧
    updateRoute "8" { name := some "a" } (fun _ _ => .knownRequestError "P2003" "fk violation") =
      (errorResponse "更新物品失败" (some 500), true) ∧
    deleteRoute "8" (fun _ => .knownRequestError "P2003" "fk violation") =
      (errorResponse "删除物品失败" (some 500), true) := by
  obtain ⟨-, hl, hlk, -, hco, -, -, huo, -, -, hdo, -⟩ :=
    claim_C7 (.otherError "disk failure") { name := some "a" } { name := some "a" }
      ⟨"a", none, none, none, none, some "0.0", none, none, none, none, none⟩ "7"
      (fun _ => .otherError "boom") (fun _ _ => .otherError "boom")
      (fun _ => .otherError "boom") rfl rfl (by decide)
  obtain ⟨-, -, -, -, -, -, -, -, huk, -, -, hdk⟩ :=
    claim_C7 (.otherError "disk failure") { name := some "a" } { name := some "a" }
      ⟨"a", none, none, none, none, some "0.0", none, none, none, none, none⟩ "8"
      (fun _ => .otherError "boom")
      (fun _ _ => .knownRequestError "P2003" "fk violation")
      (fun _ => .knownRequestError "P2003" "fk violation") rfl rfl (by decide)
  exact ⟨hl _, hlk _ _, hco _ rfl, huo _ rfl, hdo _ rfl,
         huk _ _ (by decide) rfl, hdk _ _ (by decide) rfl⟩

end Shelflife
